import Mathlib

/-!
Verification of the ICS codec and task CRUD logic of aTask1.81.py.

The Python source is embedded shallowly: each Python function becomes a
Lean definition of the same name, with machine-level details (CPython
string methods, int(), dict semantics) modelled by explicit helper
functions over character lists. Impure inputs (datetime.now, uuid,
widget reads) become explicit parameters.
-/

namespace ATask

/-- Characters stripped by CPython str.strip() on ASCII input. -/
def pyIsSpace (c : Char) : Bool :=
  c = ' ' || c = '\t' || c = '\n' || c = '\r' || c = '\x0b' || c = '\x0c'

/-- Python str.strip(): drop leading and trailing whitespace. -/
def pyStrip (s : String) : String :=
  String.mk (((s.toList.dropWhile pyIsSpace).reverse.dropWhile pyIsSpace).reverse)

/-- Fuelled splitter: Python str.split(sep) over character lists, with fuel
bounding the recursion so the definition stays structurally recursive and
kernel-reducible. Called with fuel = list length. -/
def splitSubFuel (sep : List Char) : Nat → List Char → List (List Char)
  | _, [] => [[]]
  | 0, cs => [cs]
  | fuel+1, c :: rest =>
    if sep.isPrefixOf (c :: rest) && sep.length > 0 then
      [] :: splitSubFuel sep fuel ((c :: rest).drop sep.length)
    else
      match splitSubFuel sep fuel rest with
      | [] => [[c]]
      | chunk :: more => (c :: chunk) :: more

/-- Python s.split(sep) for a nonempty separator, over character lists. -/
def splitSub (sep cs : List Char) : List (List Char) :=
  splitSubFuel sep cs.length cs

/-- Python s.split(sep) for strings. -/
def pySplit (s sep : String) : List String :=
  (splitSub sep.toList s.toList).map String.mk

/-- Models the Python substring test (sub in s) for a nonempty sub. -/
def strContains (s sub : String) : Bool :=
  (splitSub sub.toList s.toList).length > 1

/-- Fuelled Python str.replace(pat, repl): all non-overlapping occurrences,
left to right. Called with fuel = list length. -/
def replaceFuel (pat repl : List Char) : Nat → List Char → List Char
  | _, [] => []
  | 0, cs => cs
  | fuel+1, c :: rest =>
    if pat.isPrefixOf (c :: rest) && pat.length > 0 then
      repl ++ replaceFuel pat repl fuel ((c :: rest).drop pat.length)
    else c :: replaceFuel pat repl fuel rest

/-- Python s.replace(pat, repl) for strings (nonempty pat). -/
def pyReplace (s pat repl : String) : String :=
  String.mk (replaceFuel pat.toList repl.toList s.toList.length s.toList)

/-- Python line.split(sep, 1) for a single character: the part before the
first occurrence and everything after it. -/
def splitFirst (s : String) (sep : Char) : String × String :=
  let cs := s.toList
  let pre := cs.takeWhile (· ≠ sep)
  (String.mk pre, String.mk (cs.drop (pre.length + 1)))

/-- Character membership test, Python (c in s). -/
def strHasChar (s : String) (c : Char) : Bool :=
  s.toList.contains c

/-- Python s.startswith(c) for a single character. -/
def strStartsWithChar (s : String) (c : Char) : Bool :=
  s.toList.head? = some c

/-- Digit-and-underscore tail check for CPython int() literals:
after the leading digit, underscores must be single and followed by a digit. -/
def pyUDigitsOk : List Char → Bool
  | [] => true
  | ['_'] => false
  | '_' :: c :: rest => c.isDigit && pyUDigitsOk rest
  | c :: rest => c.isDigit && pyUDigitsOk rest

/-- Numeric value of a digit string (underscores removed). -/
def digitsVal (cs : List Char) : Nat :=
  (cs.filter (· ≠ '_')).foldl (fun a ch => a * 10 + (ch.toNat - 48)) 0

/-- Unsigned part of CPython int() parsing: nonempty, leading digit,
underscores only between digits. -/
def pyDigits? (cs : List Char) : Option Nat :=
  match cs with
  | [] => none
  | c :: rest => if c.isDigit && pyUDigitsOk rest then some (digitsVal (c :: rest)) else none

/-- Models CPython int(str) on ASCII input: strips whitespace, accepts an
optional sign and a digit string with single internal underscores; returns
none where CPython raises ValueError. -/
def pyInt? (s : String) : Option Int :=
  match (pyStrip s).toList with
  | '+' :: rest => (pyDigits? rest).map Int.ofNat
  | '-' :: rest => (pyDigits? rest).map (fun n => -(Int.ofNat n))
  | rest => (pyDigits? rest).map Int.ofNat

/-- Decimal digits of a natural number, kernel-reducible (fuelled). -/
def natDigitsFuel : Nat → Nat → List Char
  | _, 0 => []
  | 0, _ => []
  | fuel+1, n => natDigitsFuel fuel (n / 10) ++ [Char.ofNat (48 + n % 10)]

/-- Python str(n) for a natural number. -/
def natToString (n : Nat) : String :=
  if n = 0 then "0" else String.mk (natDigitsFuel (n + 1) n)

/-- Python str(i) for an int. -/
def intToString (i : Int) : String :=
  if i < 0 then "-" ++ natToString i.natAbs else natToString i.natAbs

/-- convert_ics_priority from aTask1.81.py lines 767-779: int() the input;
value at most 3 gives High, at most 6 Medium, at most 9 Low; anything else,
including a parse failure, falls through to None. Note the source has no
lower bound on the High branch. -/
def convert_ics_priority (priority_str : String) : String :=
  match pyInt? priority_str with
  | some priority =>
    if priority ≤ 3 then "High"
    else if priority ≤ 6 then "Medium"
    else if priority ≤ 9 then "Low"
    else "None"
  | none => "None"

/-- convert_ics_status from aTask1.81.py lines 781-789. -/
def convert_ics_status (status_str : String) : String :=
  if status_str = "NEEDS-ACTION" then "Not Started"
  else if status_str = "IN-PROCESS" then "In Progress"
  else if status_str = "COMPLETED" then "Completed"
  else if status_str = "CANCELLED" then "Deferred"
  else "Not Started"

/-- get_ics_priority from aTask1.81.py lines 2632-2637. -/
def get_ics_priority (priority : String) : String :=
  if priority = "High" then "1"
  else if priority = "Medium" then "5"
  else if priority = "Low" then "9"
  else if priority = "None" then "0"
  else "0"

/-- get_ics_status from aTask1.81.py lines 2639-2650. -/
def get_ics_status (status : String) : String :=
  if status = "Not Started" then "NEEDS-ACTION"
  else if status = "In Progress" then "IN-PROCESS"
  else if status = "Completed" then "COMPLETED"
  else if status = "Waiting" then "NEEDS-ACTION"
  else if status = "Deferred" then "CANCELLED"
  else "NEEDS-ACTION"

/-- The f-string reformat of an 8-digit YYYYMMDD token in convert_ics_date. -/
def fmtYmdDashes (t : String) : String :=
  let cs := t.toList
  String.mk (cs.take 4) ++ "-" ++ String.mk ((cs.drop 4).take 2) ++ "-"
    ++ String.mk ((cs.drop 6).take 2)

/-- The token-extraction steps of convert_ics_date (lines 798-805): the
VALUE=DATE: or KEY: handling and the removal of a T time part. Python
split returns all segments; index [1] is the segment between the first
and second occurrence of the separator. -/
def stripIcsDateToken (date_str : String) : String :=
  let d1 :=
    if strContains date_str "VALUE=DATE:" then (pySplit date_str "VALUE=DATE:").getD 1 ""
    else if strHasChar date_str ':' then (pySplit date_str ":").getD 1 ""
    else date_str
  if strHasChar d1 'T' then String.mk (d1.toList.takeWhile (· ≠ 'T')) else d1

/-- convert_ics_date from aTask1.81.py lines 791-813. -/
def convert_ics_date (date_str : String) : String :=
  if date_str = "" then ""
  else
    let d2 := stripIcsDateToken date_str
    if d2.toList.length = 8 && d2.toList.all Char.isDigit then fmtYmdDashes d2 else ""

/-! ## ICS block parser (import_from_ics, aTask1.81.py lines 614-655) -/

/-- A parsed ICS block: the Python dict of KEY to VALUE, as an ordered
association list with Python dict update semantics. -/
abbrev Block := List (String × String)

/-- Python dict.get(k): first binding of the key, if any. -/
def dictGetOpt (d : Block) (k : String) : Option String :=
  (d.find? (fun p => p.1 = k)).map (·.2)

/-- Python dict.get(k, dflt). -/
def dictGet (d : Block) (k : String) (dflt : String) : String :=
  (dictGetOpt d k).getD dflt

/-- Python d[k] = v: overwrite in place if present, else append. -/
def dictSet (d : Block) (k v : String) : Block :=
  if d.any (fun p => p.1 = k) then d.map (fun p => if p.1 = k then (k, v) else p)
  else d ++ [(k, v)]

/-- Parser state of the line loop in import_from_ics: the accumulated
items, the current block, the in_item flag and the item_type variable. -/
structure ParseState where
  items : List Block
  current : Block
  inItem : Bool
  itemType : Option String
deriving Repr, DecidableEq

/-- One iteration of the line loop of import_from_ics (lines 628-654).
The line is stripped first (line 629); the continuation-line check at
line 646 is kept exactly as in the source, after that strip. -/
def ics_step (s : ParseState) (raw : String) : ParseState :=
  let line := pyStrip raw
  if line = "BEGIN:VTODO" then
    { s with current := [("type", "VTODO")], inItem := true, itemType := some "VTODO" }
  else if line = "BEGIN:VEVENT" then
    { s with current := [("type", "VEVENT")], inItem := true, itemType := some "VEVENT" }
  else if line = "END:VTODO" || line = "END:VEVENT" then
    { s with items := if s.current ≠ [] then s.items ++ [s.current] else s.items,
             inItem := false, itemType := none }
  else if s.inItem && strHasChar line ':' then
    if strStartsWithChar line ' ' || strStartsWithChar line '\t' then s
    else
      let kv := splitFirst line ':'
      let key := if strHasChar kv.1 ';' then String.mk (kv.1.toList.takeWhile (· ≠ ';')) else kv.1
      { s with current := dictSet s.current key kv.2 }
  else s

/-- The block-accumulation phase of import_from_ics: split the file
content on newlines and run the line loop. -/
def parse_ics_items (content : String) : List Block :=
  ((pySplit content "\n").foldl ics_step ⟨[], [], false, none⟩).items

/-! ## Task records -/

/-- Repeat settings dict produced by get_repeat_settings (lines 492-509):
frequency is always present; end_type is read with default Never;
count / end_date are present only for their end types. -/
structure RepeatSettings where
  frequency : String
  end_type : Option String
  count : Option Int
  end_date : Option String
deriving Repr, DecidableEq

/-- The task dict of aTask1.81.py. The import path stores no project key;
Python dict.get(project, empty) on such a record yields the empty string,
so a missing project is modelled as the empty string. -/
structure Task where
  id : Nat
  subject : String
  project : String
  priority : String
  status : String
  progress : Int
  start_date : String
  due_date : String
  due_date_type : String
  reminder : Bool
  reminder_date : String
  reminder_time : String
  repeat_settings : Option RepeatSettings
  category : String
  owner : String
  location : String
  description : String
  created_date : String
deriving Repr, DecidableEq

/-- The task-construction body of the item loop in import_from_ics
(lines 658-684). The only operation there that can raise is
int(item.get(PERCENT-COMPLETE, zero)); none is returned in that case,
mirroring the exception. now stands for datetime.now().strftime(...). -/
def taskOfIcsItem (item : Block) (nextId : Nat) (now : String) : Option Task :=
  match pyInt? (dictGet item "PERCENT-COMPLETE" "0") with
  | none => none
  | some progress =>
    let subject0 := dictGet item "SUMMARY" "Imported Task"
    let subject := if dictGetOpt item "type" = some "VEVENT" then "📅 " ++ subject0 else subject0
    some {
      id := nextId
      subject := subject
      project := ""
      priority := convert_ics_priority (dictGet item "PRIORITY" "0")
      status := convert_ics_status (dictGet item "STATUS" "NEEDS-ACTION")
      progress := progress
      start_date := convert_ics_date (dictGet item "DTSTART" "")
      due_date := convert_ics_date
        (let d := dictGet item "DUE" ""
         if d ≠ "" then d else dictGet item "DTEND" "")
      due_date_type := "Custom"
      reminder := false
      reminder_date := ""
      reminder_time := ""
      repeat_settings := none
      category := dictGet item "CATEGORIES" ""
      owner := match dictGetOpt item "ORGANIZER" with
        | some o => if o ≠ "" then pyReplace o "mailto:" "" else ""
        | none => ""
      location := dictGet item "LOCATION" ""
      description := pyReplace (pyReplace (pyReplace
        (dictGet item "DESCRIPTION" "") "\\n" "\n") "\\," ",") "\\;" ";"
      created_date := now }

/-- The item loop of import_from_ics (lines 657-686): items are turned
into tasks and appended one by one; an exception from int() aborts the
loop, keeping tasks already appended, and the function returns False. -/
def importItemsLoop (now : String) : List Block → List Task → Nat → List Task × Bool
  | [], tasks, count => (tasks, count > 0)
  | item :: rest, tasks, count =>
    match taskOfIcsItem item (tasks.length + 1) now with
    | none => (tasks, false)
    | some t => importItemsLoop now rest (tasks ++ [t]) (count + 1)

/-- import_from_ics on the already-read file content (lines 614-691),
pure core: returns the full task list and the boolean result. -/
def import_from_ics_pure (content : String) (existing : List Task) (now : String) : List Task × Bool :=
  importItemsLoop now (parse_ics_items content) existing 0

/-! ## RRULE builder and ICS writer (lines 2514-2630) -/

/-- Days in a month with the Gregorian leap rule, as validated by
datetime. -/
def daysInMonth (y m : Nat) : Nat :=
  if m = 2 then (if (y % 4 = 0 && y % 100 ≠ 0) || y % 400 = 0 then 29 else 28)
  else if m = 4 || m = 6 || m = 9 || m = 11 then 30 else 31

/-- Value of a pure digit string. -/
def digitsNat (cs : List Char) : Nat :=
  cs.foldl (fun a ch => a * 10 + (ch.toNat - 48)) 0

/-- Models datetime.strptime(s, Y-m-d): three dash-separated digit groups
(year up to 4 digits, month and day up to 2), a valid calendar date, year
at least 1. Returns none where strptime raises ValueError. -/
def parse_iso_date (s : String) : Option (Nat × Nat × Nat) :=
  match pySplit s "-" with
  | [ys, ms, ds] =>
    let yl := ys.toList
    let ml := ms.toList
    let dl := ds.toList
    if yl ≠ [] && yl.length ≤ 4 && yl.all Char.isDigit
        && ml ≠ [] && ml.length ≤ 2 && ml.all Char.isDigit
        && dl ≠ [] && dl.length ≤ 2 && dl.all Char.isDigit then
      let y := digitsNat yl
      let m := digitsNat ml
      let d := digitsNat dl
      if 1 ≤ y && 1 ≤ m && m ≤ 12 && 1 ≤ d && d ≤ daysInMonth y m then some (y, m, d)
      else none
    else none
  | _ => none

/-- Zero-pad a natural to two digits, the strftime field formats. -/
def pad2 (n : Nat) : String :=
  if n < 10 then "0" ++ natToString n else natToString n

/-- Zero-pad a year to four digits. -/
def pad4 (n : Nat) : String :=
  if n < 10 then "000" ++ natToString n
  else if n < 100 then "00" ++ natToString n
  else if n < 1000 then "0" ++ natToString n
  else natToString n

/-- strftime YmdT235959Z date part. -/
def fmtYmd8 (y m d : Nat) : String :=
  pad4 y ++ pad2 m ++ pad2 d

/-- Python truthiness of repeat_settings.get(count). -/
def optIntTruthy : Option Int → Bool
  | some n => n ≠ 0
  | none => false

/-- Python truthiness of repeat_settings.get(end_date). -/
def optStrTruthy : Option String → Bool
  | some s => s ≠ ""
  | none => false

/-- The frequency_map dict of generate_rrule (lines 2606-2611). -/
def frequency_map (f : String) : Option String :=
  if f = "Daily" then some "DAILY"
  else if f = "Weekly" then some "WEEKLY"
  else if f = "Monthly" then some "MONTHLY"
  else if f = "Yearly" then some "YEARLY"
  else none

/-- generate_rrule from aTask1.81.py lines 2599-2630. The argument is the
repeat_settings dict or None; a strptime failure on end_date is swallowed
and only the FREQ part is emitted. -/
def generate_rrule : Option RepeatSettings → Option String
  | none => none
  | some rs =>
    if rs.frequency = "None" then none
    else
      match frequency_map rs.frequency with
      | none => none
      | some freq =>
        let base := ["FREQ=" ++ freq]
        let end_type := rs.end_type.getD "Never"
        let parts :=
          if end_type = "After X occurrences" && optIntTruthy rs.count then
            base ++ ["COUNT=" ++ intToString (rs.count.getD 0)]
          else if end_type = "Until date" && optStrTruthy rs.end_date then
            match parse_iso_date (rs.end_date.getD "") with
            | some (y, m, d) => base ++ ["UNTIL=" ++ fmtYmd8 y m d ++ "T235959Z"]
            | none => base
          else base
        some (String.mk (List.intercalate [';'] (parts.map String.toList)))

/-- format_task_name_with_project from aTask1.81.py lines 2209-2215. -/
def format_task_name_with_project (task_subject project : String) : String :=
  if project ≠ "" && project ≠ "None" then "[" ++ project ++ "] " ++ task_subject
  else task_subject

/-- The DESCRIPTION escaping of generate_ics_file (line 2588). -/
def escapeIcsDescription (s : String) : String :=
  pyReplace (pyReplace (pyReplace s "\n" "\\n") "," "\\,") ";" "\\;"

/-- Models the reminder-time handling of generate_ics_file lines 2551-2556:
split on a colon, int() both parts, datetime.replace validation. Returns
none where any of those raise (the alarm is then skipped). -/
def parseReminderTime? (t : String) : Option (Nat × Nat) :=
  if t = "" then some (0, 0)
  else
    match (pySplit t ":")[1]? with
    | none => none
    | some p1 =>
      match pyInt? ((pySplit t ":").getD 0 ""), pyInt? p1 with
      | some h, some mi =>
        if 0 ≤ h && h ≤ 23 && 0 ≤ mi && mi ≤ 59 then some (h.toNat, mi.toNat) else none
      | _, _ => none

/-- The VALARM block of generate_ics_file lines 2546-2577: emitted only
when the reminder date (and optional time) parse; any failure inside the
try block skips the alarm lines entirely. -/
def reminderAlarmLines (task : Task) : List String :=
  if task.reminder && task.reminder_date ≠ "" then
    match parse_iso_date task.reminder_date with
    | none => []
    | some (y, m, d) =>
      match parseReminderTime? task.reminder_time with
      | none => []
      | some (h, mi) =>
        let reminder_str := fmtYmd8 y m d ++ "T" ++ pad2 h ++ pad2 mi ++ "00Z"
        ["BEGIN:VALARM", "ACTION:DISPLAY",
         "DESCRIPTION:Reminder: " ++ task.subject,
         "TRIGGER;VALUE=DATE-TIME:" ++ reminder_str]
        ++ (match task.repeat_settings with
            | none => []
            | some rs =>
              match generate_rrule (some rs) with
              | some r => if r ≠ "" then ["RRULE:" ++ r] else []
              | none => [])
        ++ ["END:VALARM"]
  else []

/-- The per-task VTODO lines of generate_ics_file (lines 2520-2591), with
the fresh uuid and the DTSTAMP timestamp as parameters. -/
def taskIcsLines (task : Task) (uid : String) (dtstamp : String) : List String :=
  ["BEGIN:VTODO",
   "UID:" ++ uid,
   "SUMMARY:" ++ format_task_name_with_project task.subject task.project,
   "PRIORITY:" ++ get_ics_priority task.priority,
   "STATUS:" ++ get_ics_status task.status,
   "PERCENT-COMPLETE:" ++ intToString task.progress,
   "DTSTAMP:" ++ dtstamp]
  ++ (if task.start_date ≠ "" then ["DTSTART;VALUE=DATE:" ++ pyReplace task.start_date "-" ""] else [])
  ++ (if task.due_date ≠ "" then ["DUE;VALUE=DATE:" ++ pyReplace task.due_date "-" ""] else [])
  ++ reminderAlarmLines task
  ++ (if task.category ≠ "" then ["CATEGORIES:" ++ task.category] else [])
  ++ (if task.location ≠ "" then ["LOCATION:" ++ task.location] else [])
  ++ (if task.description ≠ "" then ["DESCRIPTION:" ++ escapeIcsDescription task.description] else [])
  ++ ["END:VTODO"]

/-- generate_ics_file (lines 2514-2597), pure core: the text written to
the file, with one uid per task and the DTSTAMP string as parameters. -/
def generate_ics_content (tasks : List Task) (uids : List String) (dtstamp : String) : String :=
  let body := (tasks.zip uids).foldl (fun acc tu => acc ++ taskIcsLines tu.1 tu.2 dtstamp) []
  let lines := ["BEGIN:VCALENDAR", "VERSION:2.0",
    "PRODID:-//Exchange Task Creator//Enhanced//EN"] ++ body ++ ["END:VCALENDAR"]
  String.mk (List.intercalate ['\n'] (lines.map String.toList))

/-! ## Task creation and update (lines 1371-1434 and 1660-1734)

The GUI state that these methods read and write. The in-memory lists are
the persisted stores as well: save_categories, save_projects,
save_locations and auto_save_tasks write exactly these lists to disk, so
a method that leaves them unchanged also leaves the stores unchanged. -/

structure AppState where
  tasks : List Task
  categories : List String
  projects : List String
  locations : List String
deriving Repr, DecidableEq

/-- The widget values read by create_task and update_task. The derived
date values (get_actual_start_date, get_actual_due_date, the
convert_display_to_iso result for the reminder date, the
get_reminder_time_string result and the get_repeat_settings result) are
carried as already-computed inputs: they are read-only computations over
the date widgets and the wall clock and touch no persistent state. -/
structure FormState where
  subject : String
  category : String
  project : String
  location : String
  priority : String
  status : String
  progress : Int
  actual_start_date : String
  actual_due_date : String
  due_date_type : String
  reminder : Bool
  reminder_date_iso : String
  reminder_time : String
  repeat_settings : Option RepeatSettings
  owner : String
  description : String
deriving Repr, DecidableEq

/-- Python list.sort() on strings: ascending, by code point. -/
def insertSorted (x : String) : List String → List String
  | [] => [x]
  | y :: ys => if x ≤ y then x :: y :: ys else y :: insertSorted x ys

/-- Result of appending then sorting a Python string list. -/
def pySortStrings (l : List String) : List String :=
  l.foldl (fun acc x => insertSorted x acc) []

/-- The three add-new-vocabulary blocks shared by create_task (lines
1675-1696) and update_task (lines 1386-1406). -/
def addVocab (st : AppState) (category project location : String) : AppState :=
  let st :=
    if category ≠ "" && !st.categories.contains category then
      { st with categories := pySortStrings (st.categories ++ [category]) }
    else st
  let st :=
    if project ≠ "" && project ≠ "None" && !st.projects.contains project then
      { st with projects := pySortStrings (st.projects ++ [project]) }
    else st
  let st :=
    if location ≠ "" && !st.locations.contains location then
      { st with locations := pySortStrings (st.locations ++ [location]) }
    else st
  st

/-- The task dict built by create_task from form data (lines 1699-1718). -/
def taskFromForm (form : FormState) (nextId : Nat) (category project location now : String) :
    Task :=
  { id := nextId
    subject := pyStrip form.subject
    project := if project ≠ "None" then project else ""
    priority := form.priority
    status := form.status
    progress := form.progress
    start_date := form.actual_start_date
    due_date := form.actual_due_date
    due_date_type := form.due_date_type
    reminder := form.reminder
    reminder_date := if form.reminder then form.reminder_date_iso else ""
    reminder_time := form.reminder_time
    repeat_settings := form.repeat_settings
    category := category
    owner := pyStrip form.owner
    location := location
    description := pyStrip form.description
    created_date := now }

/-- create_task from aTask1.81.py lines 1660-1734, pure core: validation
aborts before any mutation; otherwise vocabularies are extended and the
new task is appended. -/
def create_task (st : AppState) (form : FormState) (now : String) : AppState :=
  if pyStrip form.subject = "" then st
  else
    let category := pyStrip form.category
    if category = "" || category = "-- Select Category --" then st
    else
      let project := pyStrip form.project
      let location := pyStrip form.location
      let st := addVocab st category project location
      let task := taskFromForm form (st.tasks.length + 1) category project location now
      { st with tasks := st.tasks ++ [task] }

/-- The dict.update call of update_task (lines 1409-1426): every key of
the editing task is replaced from form data except id and created_date,
which the update dict does not mention. -/
def updated_task_record (old : Task) (form : FormState) : Task :=
  let project := pyStrip form.project
  { old with
    subject := pyStrip form.subject
    project := if project ≠ "None" then project else ""
    priority := form.priority
    status := form.status
    progress := form.progress
    start_date := form.actual_start_date
    due_date := form.actual_due_date
    due_date_type := form.due_date_type
    reminder := form.reminder
    reminder_date := if form.reminder then form.reminder_date_iso else ""
    reminder_time := form.reminder_time
    repeat_settings := form.repeat_settings
    category := pyStrip form.category
    owner := pyStrip form.owner
    location := pyStrip form.location
    description := pyStrip form.description }

/-- update_task from aTask1.81.py lines 1371-1434, pure core. The edited
task is a reference into the task list, modelled by its index; validation
aborts before any mutation. -/
def update_task (st : AppState) (idx : Nat) (form : FormState) : AppState :=
  if pyStrip form.subject = "" then st
  else
    let category := pyStrip form.category
    if category = "" || category = "-- Select Category --" then st
    else
      match st.tasks[idx]? with
      | none => st
      | some old =>
        let project := pyStrip form.project
        let location := pyStrip form.location
        let st := addVocab st category project location
        { st with tasks := st.tasks.set idx (updated_task_record old form) }

/-! ## Concrete sample data used by the claim theorems -/

/-- The round-trip scenario task of the spec: subject Pay invoice, no
project, category Business, due 2024-03-01, priority High. -/
def payInvoiceTask : Task :=
  { id := 1, subject := "Pay invoice", project := "", priority := "High",
    status := "Not Started", progress := 0, start_date := "",
    due_date := "2024-03-01", due_date_type := "Custom", reminder := false,
    reminder_date := "", reminder_time := "", repeat_settings := none,
    category := "Business", owner := "", location := "", description := "",
    created_date := "2024-02-01 09:00:00" }

/-- An application state with no tasks or vocabularies. -/
def emptyAppState : AppState := ⟨[], [], [], []⟩

/-- A form with every text field blank. -/
def blankForm : FormState :=
  { subject := "", category := "", project := "", location := "",
    priority := "None", status := "Not Started", progress := 0,
    actual_start_date := "", actual_due_date := "", due_date_type := "None",
    reminder := false, reminder_date_iso := "", reminder_time := "",
    repeat_settings := none, owner := "", description := "" }

/-- A form passing validation. -/
def validForm : FormState :=
  { blankForm with
    subject := " Buy milk "
    category := "Errands"
    project := "Home"
    priority := "High"
    status := "In Progress"
    progress := 40
    description := "two percent" }

/-- A one-task application state for the update scenario. -/
def oneTaskState : AppState := ⟨[payInvoiceTask], ["Business"], [], []⟩

/-! ## Helper lemmas -/

theorem strMk_append (a b : List Char) : String.mk (a ++ b) = String.mk a ++ String.mk b := rfl

theorem strMk_toList (s : String) : String.mk s.toList = s := rfl

theorem str_append_assoc (a b c : String) : a ++ b ++ c = a ++ (b ++ c) :=
  congrArg String.mk (List.append_assoc a.data b.data c.data)

theorem addVocab_tasks (st : AppState) (c p l : String) : (addVocab st c p l).tasks = st.tasks := by
  simp only [addVocab]
  split_ifs <;> rfl

theorem strMk_pair (a b : String) :
    String.mk (List.intercalate [';'] (List.map String.toList [a, b])) = a ++ ";" ++ b := by
  have h : List.intercalate [';'] [a.toList, b.toList] = a.toList ++ ([';'] ++ b.toList) := by
    simp [List.intercalate, List.intersperse]
  show String.mk (List.intercalate [';'] [a.toList, b.toList]) = a ++ ";" ++ b
  rw [h, strMk_append, strMk_append, strMk_toList, strMk_toList, str_append_assoc]

theorem strMk_single (a : String) :
    String.mk (List.intercalate [';'] (List.map String.toList [a])) = a := by
  have h : List.intercalate [';'] [a.toList] = a.toList := by
    simp [List.intercalate, List.intersperse]
  show String.mk (List.intercalate [';'] [a.toList]) = a
  rw [h, strMk_toList]

set_option maxRecDepth 10000

theorem generate_rrule_never_case (rs : RepeatSettings) (freq : String)
    (hf : frequency_map rs.frequency = some freq)
    (he : rs.end_type.getD "Never" = "Never") :
    generate_rrule (some rs) = some ("FREQ=" ++ freq) := by
  have hne : rs.frequency ≠ "None" := by
    intro e; rw [e] at hf; simp [frequency_map] at hf
  simp only [generate_rrule, if_neg hne, hf, he, decide_True, decide_False, Bool.false_and,
    Bool.and_false, if_false, Bool.and_self, Bool.true_and, Bool.and_true, if_true]
  unfold frequency_map at hf
  split_ifs at hf with h1 h2 h3 h4
  · injection hf with hfe; subst hfe; exact congrArg some (strMk_single _)
  · injection hf with hfe; subst hfe; exact congrArg some (strMk_single _)
  · injection hf with hfe; subst hfe; exact congrArg some (strMk_single _)
  · injection hf with hfe; subst hfe; exact congrArg some (strMk_single _)

theorem generate_rrule_count_case (rs : RepeatSettings) (freq : String)
    (hf : frequency_map rs.frequency = some freq)
    (n : Int) (he : rs.end_type.getD "Never" = "After X occurrences")
    (hc : rs.count = some n) (hn : n ≠ 0) :
    generate_rrule (some rs) = some ("FREQ=" ++ freq ++ ";COUNT=" ++ intToString n) := by
  have hne : rs.frequency ≠ "None" := by
    intro e; rw [e] at hf; simp [frequency_map] at hf
  have ht2 : optIntTruthy (some n) = true := by simp [optIntTruthy, hn]
  simp only [generate_rrule, if_neg hne, hf, he, hc, ht2, decide_True, Bool.and_self,
    Bool.true_and, Bool.and_true, if_true, Option.getD_some]
  unfold frequency_map at hf
  split_ifs at hf with h1 h2 h3 h4
  · injection hf with hfe; subst hfe; exact congrArg some (strMk_pair _ _)
  · injection hf with hfe; subst hfe; exact congrArg some (strMk_pair _ _)
  · injection hf with hfe; subst hfe; exact congrArg some (strMk_pair _ _)
  · injection hf with hfe; subst hfe; exact congrArg some (strMk_pair _ _)

theorem generate_rrule_until_case (rs : RepeatSettings) (freq : String)
    (hf : frequency_map rs.frequency = some freq)
    (e : String) (y m d : Nat) (he : rs.end_type.getD "Never" = "Until date")
    (hd : rs.end_date = some e) (hne2 : e ≠ "") (hp : parse_iso_date e = some (y, m, d)) :
    generate_rrule (some rs)
      = some ("FREQ=" ++ freq ++ ";UNTIL=" ++ fmtYmd8 y m d ++ "T235959Z") := by
  have hne : rs.frequency ≠ "None" := by
    intro e2; rw [e2] at hf; simp [frequency_map] at hf
  have ht2 : optStrTruthy (some e) = true := by simp [optStrTruthy, hne2]
  simp only [generate_rrule, if_neg hne, hf, he, hd, ht2, decide_True, Bool.and_self,
    Bool.true_and, Bool.and_true, if_true, Option.getD_some, decide_False, Bool.false_and,
    Bool.and_false, if_false, hp]
  unfold frequency_map at hf
  split_ifs at hf with h1 h2 h3 h4
  · injection hf with hfe; subst hfe; exact congrArg some (strMk_pair _ _)
  · injection hf with hfe; subst hfe; exact congrArg some (strMk_pair _ _)
  · injection hf with hfe; subst hfe; exact congrArg some (strMk_pair _ _)
  · injection hf with hfe; subst hfe; exact congrArg some (strMk_pair _ _)

/-! ## Claim theorems -/

/-- C1. The claim states convert_ics_priority maps an integer in [1,3] to
High, [4,6] to Medium, [7,9] to Low, and every other input, including the
string 0, to None. The code has no lower bound on the High branch: on
input 0 it returns High, contradicting the claim (and the round-trip
intent, since the exporter writes 0 for priority None and the importer
defaults a missing PRIORITY to 0). -/
theorem convert_ics_priority_zero_is_high :
    convert_ics_priority "0" = "High" ∧ convert_ics_priority "0" ≠ "None" := by
  decide

/-- C2. The claim states every line inside a block starting with a space
or tab is skipped and never sets a key. The code strips each line before
the continuation check, so the check is dead: here the whitespace-prefixed
line sets the DESCRIPTION key of the block. -/
theorem folded_line_sets_key :
    parse_ics_items "BEGIN:VTODO\n DESCRIPTION:folded tail\nEND:VTODO"
      = [[("type", "VTODO"), ("DESCRIPTION", "folded tail")]] := by
  decide

/-- C3 counterexample. The claim states a malformed PERCENT-COMPLETE value
defaults progress to 0 and never fails the import; in the code int()
raises and import_from_ics returns False with no task imported. -/
theorem malformed_percent_aborts_import :
    import_from_ics_pure "BEGIN:VTODO\nSUMMARY:A\nPERCENT-COMPLETE:abc\nEND:VTODO" [] "now"
      = ([], false) := by
  decide

/-- C3 amended. When the PERCENT-COMPLETE key is missing, progress
defaults to 0; a block with every key missing maps to a task with the
fixed defaults (empty strings, progress 0, subject Imported Task, status
Not Started, and priority High through the missing lower bound of
convert_ics_priority) and does not fail the import. -/
theorem missing_percent_defaults :
    (∀ (item : Block) (n : Nat) (now : String), dictGetOpt item "PERCENT-COMPLETE" = none →
      ∃ t, taskOfIcsItem item n now = some t ∧ t.progress = 0)
    ∧ (∀ (n : Nat) (now : String),
        taskOfIcsItem [("type", "VTODO")] n now
          = some ⟨n, "Imported Task", "", "High", "Not Started", 0, "", "", "Custom",
                  false, "", "", none, "", "", "", "", now⟩) := by
  constructor
  · intro item n now h
    have hget : dictGet item "PERCENT-COMPLETE" "0" = "0" := by
      simp [dictGet, h]
    simp only [taskOfIcsItem, hget]
    exact ⟨_, rfl, rfl⟩
  · intro n now
    rfl

/-- C3 witness: the amended statement applied to the all-defaults block. -/
theorem missing_percent_defaults_witness :
    ∃ t, taskOfIcsItem [("type", "VTODO")] 3 "2024-01-01 00:00:00" = some t ∧ t.progress = 0 :=
  missing_percent_defaults.1 [("type", "VTODO")] 3 "2024-01-01 00:00:00" (by decide)

/-- C5. Round-tripping each domain status through get_ics_status and
convert_ics_status is the identity for Not Started, In Progress,
Completed and Deferred, and collapses Waiting to Not Started. -/
theorem status_roundtrip :
    convert_ics_status (get_ics_status "Not Started") = "Not Started"
    ∧ convert_ics_status (get_ics_status "In Progress") = "In Progress"
    ∧ convert_ics_status (get_ics_status "Completed") = "Completed"
    ∧ convert_ics_status (get_ics_status "Deferred") = "Deferred"
    ∧ convert_ics_status (get_ics_status "Waiting") = "Not Started" := by
  decide

/-- C6. convert_ics_date on the two spec inputs yields the reformatted
dates, yields the empty string on empty or garbage input, and in general
every output is either empty or the dashed reformat of an 8-digit token
extracted by the stripping steps, so the function never raises. -/
theorem ics_date_conversion :
    convert_ics_date "DTSTART;VALUE=DATE:20241225" = "2024-12-25"
    ∧ convert_ics_date "DTSTART:20241225T090000" = "2024-12-25"
    ∧ convert_ics_date "" = ""
    ∧ convert_ics_date "garbage" = ""
    ∧ ∀ s, convert_ics_date s = ""
        ∨ ∃ t, t.toList.length = 8 ∧ t.toList.all Char.isDigit = true
            ∧ convert_ics_date s = fmtYmdDashes t := by
  refine ⟨by decide, by decide, by decide, by decide, ?_⟩
  intro s
  by_cases h0 : s = ""
  · left
    simp [convert_ics_date, h0]
  · by_cases hg : ((stripIcsDateToken s).toList.length = 8
        && (stripIcsDateToken s).toList.all Char.isDigit) = true
    · right
      obtain ⟨hlen, hdig⟩ := (Bool.and_eq_true _ _).mp hg
      refine ⟨stripIcsDateToken s, of_decide_eq_true hlen, hdig, ?_⟩
      simp only [convert_ics_date, if_neg h0]
      rw [if_pos hg]
    · left
      simp only [convert_ics_date, if_neg h0]
      rw [if_neg hg]

/-- C4. Round trip: exporting the Pay invoice task (subject Pay invoice,
no project, category Business, due 2024-03-01, priority High) through
generate_ics_file and re-importing the text through import_from_ics
succeeds and yields exactly one task whose subject contains Pay invoice,
whose priority is High and whose due_date is 2024-03-01. The fresh uuid
and the two timestamps are fixed representative values. -/
theorem export_import_roundtrip :
    ((import_from_ics_pure
        (generate_ics_content [payInvoiceTask] ["a1b2c3d4-e5f6-4711-8899-aabbccddeeff"]
          "20240301T000000Z") [] "2024-03-01 00:00:00").2 = true)
    ∧ ((import_from_ics_pure
        (generate_ics_content [payInvoiceTask] ["a1b2c3d4-e5f6-4711-8899-aabbccddeeff"]
          "20240301T000000Z") [] "2024-03-01 00:00:00").1.map
        (fun t => (strContains t.subject "Pay invoice", t.priority, t.due_date)))
      = [(true, "High", "2024-03-01")] := by
  decide

/-- C7. generate_rrule returns none when repeat_settings is None or its
frequency is the string None; for a mapped frequency it returns FREQ=F,
with COUNT appended for the after-count end type and a nonzero count,
and UNTIL with a 235959Z timestamp appended for the until-date end type
when the end date parses; the two spec examples evaluate as stated. -/
theorem rrule_builder :
    generate_rrule none = none
    ∧ (∀ rs : RepeatSettings, rs.frequency = "None" → generate_rrule (some rs) = none)
    ∧ generate_rrule (some ⟨"Weekly", some "After X occurrences", some 5, none⟩)
        = some "FREQ=WEEKLY;COUNT=5"
    ∧ generate_rrule (some ⟨"Monthly", some "Never", none, none⟩) = some "FREQ=MONTHLY"
    ∧ (∀ (rs : RepeatSettings) (freq : String), frequency_map rs.frequency = some freq →
        rs.end_type.getD "Never" = "Never" → generate_rrule (some rs) = some ("FREQ=" ++ freq))
    ∧ (∀ (rs : RepeatSettings) (freq : String) (n : Int),
        frequency_map rs.frequency = some freq →
        rs.end_type.getD "Never" = "After X occurrences" → rs.count = some n → n ≠ 0 →
        generate_rrule (some rs) = some ("FREQ=" ++ freq ++ ";COUNT=" ++ intToString n))
    ∧ (∀ (rs : RepeatSettings) (freq e : String) (y m d : Nat),
        frequency_map rs.frequency = some freq →
        rs.end_type.getD "Never" = "Until date" → rs.end_date = some e → e ≠ "" →
        parse_iso_date e = some (y, m, d) →
        generate_rrule (some rs)
          = some ("FREQ=" ++ freq ++ ";UNTIL=" ++ fmtYmd8 y m d ++ "T235959Z")) := by
  refine ⟨rfl, ?_, by decide, by decide, ?_, ?_, ?_⟩
  · intro rs h
    simp [generate_rrule, h]
  · intro rs freq hf he
    exact generate_rrule_never_case rs freq hf he
  · intro rs freq n hf he hc hn
    exact generate_rrule_count_case rs freq hf n he hc hn
  · intro rs freq e y m d hf he hd hne hp
    exact generate_rrule_until_case rs freq hf e y m d he hd hne hp

/-- C7 witness: the until-date component applied to a concrete record. -/
theorem rrule_builder_witness :
    generate_rrule (some ⟨"Daily", some "Until date", none, some "2024-03-01"⟩)
      = some "FREQ=DAILY;UNTIL=20240301T235959Z" := by
  have h := rrule_builder.2.2.2.2.2.2
    ⟨"Daily", some "Until date", none, some "2024-03-01"⟩ "DAILY" "2024-03-01" 2024 3 1
    (by decide) (by decide) rfl (by decide) (by decide)
  exact h.trans (by decide)

/-- C8. When the stripped subject is empty, or the stripped category is
empty or the placeholder, create_task and update_task return the state
unchanged: no task is added or modified and no vocabulary list (the
persisted stores) changes. -/
theorem validation_blocks_mutation (st : AppState) (form : FormState) (now : String) (idx : Nat)
    (h : pyStrip form.subject = "" ∨ pyStrip form.category = ""
      ∨ pyStrip form.category = "-- Select Category --") :
    create_task st form now = st ∧ update_task st idx form = st := by
  by_cases hs : pyStrip form.subject = ""
  · exact ⟨by simp [create_task, hs], by simp [update_task, hs]⟩
  · have hc : (pyStrip form.category = ""
        || pyStrip form.category = "-- Select Category --") = true := by
      rcases h with h | h | h
      · exact absurd h hs
      · simp [h]
      · simp [h]
    exact ⟨by simp [create_task, hs, hc], by simp [update_task, hs, hc]⟩

/-- C8 witness: both operations on a blank form leave the empty state
unchanged. -/
theorem validation_blocks_mutation_witness :
    create_task emptyAppState blankForm "2024-01-01 00:00:00" = emptyAppState
    ∧ update_task emptyAppState 0 blankForm = emptyAppState :=
  validation_blocks_mutation emptyAppState blankForm "2024-01-01 00:00:00" 0 (Or.inl (by decide))

/-- C9. For any state, index and form passing validation, update_task
replaces exactly the indexed task with the record updated from form data:
the id and created_date of the task are unchanged, and every other field
is taken from the form. -/
theorem update_preserves_id_created (st : AppState) (idx : Nat) (form : FormState) (old : Task)
    (h1 : pyStrip form.subject ≠ "")
    (h2 : pyStrip form.category ≠ "")
    (h3 : pyStrip form.category ≠ "-- Select Category --")
    (h4 : st.tasks[idx]? = some old) :
    (update_task st idx form).tasks = st.tasks.set idx (updated_task_record old form)
    ∧ (updated_task_record old form).id = old.id
    ∧ (updated_task_record old form).created_date = old.created_date
    ∧ (updated_task_record old form).subject = pyStrip form.subject
    ∧ (updated_task_record old form).project
        = (if pyStrip form.project ≠ "None" then pyStrip form.project else "")
    ∧ (updated_task_record old form).priority = form.priority
    ∧ (updated_task_record old form).status = form.status
    ∧ (updated_task_record old form).progress = form.progress
    ∧ (updated_task_record old form).start_date = form.actual_start_date
    ∧ (updated_task_record old form).due_date = form.actual_due_date
    ∧ (updated_task_record old form).due_date_type = form.due_date_type
    ∧ (updated_task_record old form).reminder = form.reminder
    ∧ (updated_task_record old form).reminder_date
        = (if form.reminder then form.reminder_date_iso else "")
    ∧ (updated_task_record old form).reminder_time = form.reminder_time
    ∧ (updated_task_record old form).repeat_settings = form.repeat_settings
    ∧ (updated_task_record old form).category = pyStrip form.category
    ∧ (updated_task_record old form).owner = pyStrip form.owner
    ∧ (updated_task_record old form).location = pyStrip form.location
    ∧ (updated_task_record old form).description = pyStrip form.description := by
  refine ⟨?_, rfl, rfl, rfl, rfl, rfl, rfl, rfl, rfl, rfl, rfl, rfl, rfl, rfl, rfl, rfl, rfl,
    rfl, rfl⟩
  have hc : (pyStrip form.category = ""
      || pyStrip form.category = "-- Select Category --") = false := by
    simp [h2, h3]
  simp [update_task, h1, hc, h4, addVocab_tasks]

/-- C9 witness: the theorem applied to a one-task state and a valid form. -/
theorem update_preserves_id_created_witness :
    (update_task oneTaskState 0 validForm).tasks
      = oneTaskState.tasks.set 0 (updated_task_record payInvoiceTask validForm)
    ∧ (updated_task_record payInvoiceTask validForm).id = payInvoiceTask.id
    ∧ (updated_task_record payInvoiceTask validForm).created_date
      = payInvoiceTask.created_date := by
  have h := update_preserves_id_created oneTaskState 0 validForm payInvoiceTask
    (by decide) (by decide) (by decide) rfl
  exact ⟨h.1, h.2.1, h.2.2.1⟩

/-- C10. The parser does not reset its accumulator on an END line: a
complete VTODO block followed by a second, unmatched END:VTODO makes the
parser append the same block twice, and the import then creates two tasks
from the one block, equal in every field except the sequentially assigned
id. -/
theorem unmatched_end_duplicates_block :
    parse_ics_items "BEGIN:VTODO\nSUMMARY:One\nEND:VTODO\nEND:VTODO"
      = [[("type", "VTODO"), ("SUMMARY", "One")], [("type", "VTODO"), ("SUMMARY", "One")]]
    ∧ (import_from_ics_pure "BEGIN:VTODO\nSUMMARY:One\nEND:VTODO\nEND:VTODO"
        [] "2024-01-01 00:00:00").1
      = [⟨1, "One", "", "High", "Not Started", 0, "", "", "Custom", false, "", "",
          none, "", "", "", "", "2024-01-01 00:00:00"⟩,
         ⟨2, "One", "", "High", "Not Started", 0, "", "", "Custom", false, "", "",
          none, "", "", "", "", "2024-01-01 00:00:00"⟩] := by
  decide

end ATask
